import Mathlib

/-!
Verification development for the MedRAG pipeline (`src/medrag_mistral.py`).

The Python source is shallowly embedded below: pure string manipulation is
translated into Lean functions, external collaborators (retrieval system,
hosted APIs, local model handles, tokenizers) are abstracted as function
parameters, Python exceptions become `Except`, and observable side effects
(retrieval calls, generation calls, directory creation, file writes) are
recorded in an explicit event trace.
-/

namespace MedRAG

/-! ### String preliminaries (Python `in`, `.lower()`, `'\n'.join`, `sorted`) -/

/-- Boolean test that `needle` is an initial segment of `hay` (char lists). -/
def listIsPre : List Char → List Char → Bool
  | [], _ => true
  | _ :: _, [] => false
  | a :: as, b :: bs => a == b && listIsPre as bs

/-- Boolean substring test on char lists, scanning left to right. -/
def listSub (needle : List Char) : List Char → Bool
  | [] => listIsPre needle []
  | b :: bs => listIsPre needle (b :: bs) || listSub needle bs

/-- Python's `needle in hay` on strings: substring containment. -/
def strIn (needle hay : String) : Bool :=
  listSub needle.toList hay.toList

/-- Python's `str.lower()` (ASCII model, adequate for backend identifiers). -/
def pyLower (s : String) : String :=
  String.mk (s.toList.map Char.toLower)

/-- Python's `'\n'.join(l)`. -/
def joinNl : List String → String
  | [] => ""
  | [s] => s
  | s :: rest => s ++ "\n" ++ joinNl rest

/-- Helper for `pySplitSlash`: split a char list at a separator char,
accumulating the current piece in reverse. -/
def splitCharAux (sep : Char) : List Char → List Char → List String
  | [], acc => [String.mk acc.reverse]
  | c :: cs, acc =>
    if c == sep then String.mk acc.reverse :: splitCharAux sep cs []
    else splitCharAux sep cs (c :: acc)

/-- Python's `s.split('/')` (always returns a nonempty list of pieces). -/
def pySplitSlash (s : String) : List String :=
  splitCharAux '/' s.toList []

/-- Lexicographic comparison of char lists by code point (Python string `<=`). -/
def charListLe : List Char → List Char → Bool
  | [], _ => true
  | _ :: _, [] => false
  | a :: as, b :: bs =>
    if a.toNat < b.toNat then true
    else if b.toNat < a.toNat then false
    else charListLe as bs

/-- Python string `<=` via code points. -/
def strLeB (a b : String) : Bool :=
  charListLe a.toList b.toList

/-- Insertion step for sorting option keys (models Python `sorted`). -/
def insertByKey (kv : String × String) : List (String × String) → List (String × String)
  | [] => [kv]
  | x :: xs => if strLeB kv.1 x.1 then kv :: x :: xs else x :: insertByKey kv xs

/-- Insertion sort on the option keys (models Python `sorted(options.keys())`). -/
def sortByKey (l : List (String × String)) : List (String × String) :=
  l.foldr insertByKey []

/-! ### Whitespace collapsing: embedding of `re.sub("\s+", " ", ans)`
(lines 149 and 158 of the source). -/

/-- Python `\s` over the ASCII range: space, tab, newline, vertical tab,
form feed, carriage return. -/
def isWs (c : Char) : Bool :=
  c == ' ' || c == '\t' || c == '\n' || c == '\x0b' || c == '\x0c' || c == '\r'

/-- One left-to-right pass of `re.sub("\s+", " ", ·)` over a char list.
The Boolean argument records whether the scanner is inside a whitespace
run (the run already contributed its single replacement space). -/
def collapseChars : List Char → Bool → List Char
  | [], _ => []
  | c :: rest, inRun =>
    if isWs c then
      if inRun then collapseChars rest true
      else ' ' :: collapseChars rest true
    else c :: collapseChars rest false

/-- `re.sub("\s+", " ", s)`: every maximal whitespace run becomes one space. -/
def collapseWs (s : String) : String :=
  String.mk (collapseChars s.toList false)

/-! ### Tokenizers (abstract collaborators) -/

/-- An abstract tokenizer: `encode` takes the text and the
`add_special_tokens` flag; `decode` maps token ids back to text. -/
structure Tokenizer where
  encode : String → Bool → List Nat
  decode : List Nat → String

/-- A concrete tokenizer (one token per character) used to evaluate the
embedding on concrete inputs. -/
def charTokenizer : Tokenizer where
  encode s _ := s.toList.map Char.toNat
  decode l := String.mk (l.map Char.ofNat)

/-! ### Data model -/

/-- A chat message, `{"role": ..., "content": ...}`. -/
structure Message where
  role : String
  content : String
deriving DecidableEq, Repr

/-- A retrieved snippet, `{"title": ..., "content": ...}`. -/
structure Snippet where
  title : String
  content : String
deriving DecidableEq, Repr

/-- The token budgets assigned by a branch of the constructor
(`self.max_length` / `self.context_length`, lines 43-105). -/
structure Profile where
  max_length : Nat
  context_length : Nat
deriving DecidableEq, Repr

/-- The prompt template set (`self.templates`, lines 41-42); the render
functions are abstract. -/
structure Templates where
  cot_system : String
  cot_prompt : String → String → String
  medrag_system : String
  medrag_prompt : String → String → String → String

/-- Token-budget selection: the branch structure of `__init__`
(lines 43-105) restricted to the `max_length` / `context_length`
assignments. Returns `none` when a branch assigns neither attribute
(provider `openai/` with a model that is not gpt-3.5/gpt-35/gpt-4). -/
def selectProfile (llm_name : String) : Option Profile :=
  if pyLower ((pySplitSlash llm_name).headD "") = "openai" then
    -- lines 43-51: self.model = llm_name.split('/')[-1]
    let model := (pySplitSlash llm_name).getLastD ""
    if strIn "gpt-3.5" model || strIn "gpt-35" model then some ⟨16384, 15000⟩
    else if strIn "gpt-4" model then some ⟨32768, 30000⟩
    else none
  else if strIn "gemini" (pyLower llm_name) then
    -- lines 52-68
    if strIn "1.5" (pyLower llm_name) then some ⟨1048576, 1040384⟩
    else some ⟨30720, 28672⟩
  else
    -- lines 69-93: default 2048/1024 then substring overrides
    if strIn "mistral" (pyLower llm_name) then some ⟨32768, 30000⟩
    else if strIn "llama-2" (pyLower llm_name) then some ⟨4096, 3072⟩
    else if strIn "llama-3" (pyLower llm_name) then some ⟨8192, 7168⟩
    else if strIn "meditron-70b" (pyLower llm_name) then some ⟨4096, 3072⟩
    else if strIn "pmc_llama" (pyLower llm_name) then some ⟨2048, 1024⟩
    else some ⟨2048, 1024⟩

/-- The per-instance configuration assembled by `__init__` that `answer`
and `generate` read. -/
structure Config where
  llm_name : String
  rag : Bool
  profile : Option Profile
  tokenizer : Tokenizer
  templates : Templates
  apply_chat_template : List Message → String
  eos_token_id : Nat
  eot_id : Nat

/-- Constructor embedding (`MedRAG.__init__`): records the name, the rag
flag and the token-budget profile selected from the name; the tokenizer,
templates and chat-template renderers are the abstract collaborators
loaded there. -/
def mkConfig (llm_name : String) (rag : Bool) (tok : Tokenizer) (tmpl : Templates)
    (act : List Message → String) (eos eot : Nat) : Config :=
  { llm_name := llm_name, rag := rag, profile := selectProfile llm_name,
    tokenizer := tok, templates := tmpl, apply_chat_template := act,
    eos_token_id := eos, eot_id := eot }

/-! ### Custom stopping criterion (lines 278-287) -/

/-- `CustomStoppingCriteria.__init__`: stop phrases, tokenizer, and the
token length of the prompt. -/
structure CustomStoppingCriteria where
  tokenizer : Tokenizer
  stops_words : List String
  input_len : Nat

/-- `MedRAG.custom_stop` (lines 168-170): wraps the criterion (the
single-element `StoppingCriteriaList` is modelled as the criterion itself). -/
def custom_stop (tok : Tokenizer) (stop_str : List String) (input_len : Nat) :
    CustomStoppingCriteria :=
  { tokenizer := tok, stops_words := stop_str, input_len := input_len }

/-- `CustomStoppingCriteria.__call__` (lines 285-287): decode the tokens of
the first row past `input_len` and test whether any stop phrase occurs in
the decoded text. The `scores` argument is ignored, as in the source. -/
def CustomStoppingCriteria.call (c : CustomStoppingCriteria)
    (input_ids : List (List Nat)) (scores : List Nat) : Bool :=
  let tokens := c.tokenizer.decode ((input_ids.headD []).drop c.input_len)
  let _ := scores
  c.stops_words.any (fun stop => strIn stop tokens)

/-! ### Errors, events, return values -/

/-- Python exceptions visible in the embedding: `raised` wraps an exception
from a collaborator; the other constructors embed the interpreter errors
the source itself can produce. -/
inductive PyErr (ε : Type) where
  | raised (e : ε)
  | attributeError (attr : String)
  | unboundLocalError (v : String)
deriving DecidableEq, Repr

/-- The first component of `answer`'s return triple (line 166): a single
string when exactly one answer was produced, otherwise the list. -/
inductive PyVal where
  | str (s : String)
  | strList (l : List String)
deriving DecidableEq, Repr

/-- Observable side effects of an `answer` call, in program order. -/
inductive Event where
  | retrieveCall (query : String) (k rrf_k : Nat)
  | makedirs (dir : String)
  | genCall (messages : List Message)
  | writeFile (path : String)
deriving DecidableEq, Repr

/-- Recognizes generation-call events. -/
def isGen : Event → Bool
  | .genCall _ => true
  | _ => false

/-- Recognizes retrieval-call events. -/
def isRetrieve : Event → Bool
  | .retrieveCall _ _ _ => true
  | _ => false

/-- Recognizes file-write events. -/
def isWrite : Event → Bool
  | .writeFile _ => true
  | _ => false

/-! ### The orchestrator `answer` (lines 107-166) -/

/-- Line 116: `'\n'.join([key+". "+options[key] for key in sorted(options.keys())])`,
line 118: `options = ''` when no options are given. -/
def formatOptions : Option (List (String × String)) → String
  | some opts => joinNl ((sortByKey opts).map (fun kv => kv.1 ++ ". " ++ kv.2))
  | none => ""

/-- Line 123: `"Document [{:d}] (Title: {:s}) {:s}".format(idx, title, content)`. -/
def formatSnippet (idx : Nat) (s : Snippet) : String :=
  "Document [" ++ toString idx ++ "] (Title: " ++ s.title ++ ") " ++ s.content

/-- Lines 126-131: join the formatted snippets, encode with the
backend-appropriate tokenizer call, keep the first `context_length`
tokens, decode. Reading `self.context_length` when the constructor never
assigned it (unknown `openai/` model) is an `AttributeError`. -/
def truncCtxs {ε : Type} (cfg : Config) (joined : String) :
    Except (PyErr ε) (List String) :=
  if strIn "openai" (pyLower cfg.llm_name) then
    match cfg.profile with
    | none => .error (.attributeError "context_length")
    | some p => .ok [cfg.tokenizer.decode ((cfg.tokenizer.encode joined true).take p.context_length)]
  else if strIn "gemini" (pyLower cfg.llm_name) then
    match cfg.profile with
    | none => .error (.attributeError "context_length")
    | some p => .ok [cfg.tokenizer.decode ((cfg.tokenizer.encode joined true).take p.context_length)]
  else
    -- line 131: local backends encode with add_special_tokens=False
    match cfg.profile with
    | none => .error (.attributeError "context_length")
    | some p => .ok [cfg.tokenizer.decode ((cfg.tokenizer.encode joined false).take p.context_length)]

/-- The per-context generation loop of `answer` (lines 151-158): render the
RAG prompt for each context, call `generate`, collapse whitespace in the
answer; an exception from a generation call propagates, discarding the
answers accumulated so far. Returns the answers and the generation events. -/
def ragGenLoop {ε : Type} (cfg : Config) (gen : List Message → Except ε String)
    (question optStr : String) :
    List String → (Except (PyErr ε) (List String)) × List Event
  | [] => (.ok [], [])
  | context :: rest =>
    let messages : List Message :=
      [⟨"system", cfg.templates.medrag_system⟩,
       ⟨"user", cfg.templates.medrag_prompt context question optStr⟩]
    match gen messages with
    | .error e => (.error (.raised e), [Event.genCall messages])
    | .ok ans =>
      match ragGenLoop cfg gen question optStr rest with
      | (.error e, evs) => (.error e, Event.genCall messages :: evs)
      | (.ok tail, evs) => (.ok (collapseWs ans :: tail), Event.genCall messages :: evs)

/-- Line 166: `answers[0] if len(answers)==1 else answers`. -/
def retVal (answers : List String) : PyVal :=
  if answers.length = 1 then .str (answers.headD "") else .strList answers

/-- Lines 137-138: create the save directory when given and absent. -/
def mkdirEvs (pathExists : String → Bool) : Option String → List Event
  | some d => if pathExists d then [] else [Event.makedirs d]
  | none => []

/-- Lines 160-164: write `snippets.json` and `response.json` under the
save directory (`os.path.join` modelled as `/`-concatenation). -/
def writeEvs : Option String → List Event
  | some d => [Event.writeFile (d ++ "/" ++ "snippets.json"),
               Event.writeFile (d ++ "/" ++ "response.json")]
  | none => []

/-- The result of an `answer` call: the returned triple (or propagated
exception) together with the trace of observable effects. -/
abbrev AnswerRes (ε σ : Type) :=
  (Except (PyErr ε) (PyVal × List Snippet × List σ)) × List Event

/-- The tail of the rag path after the generation loop (lines 160-166):
on success append the two file writes and build the return triple; a
propagated loop exception skips the writes. -/
def afterLoop {ε σ : Type} (retrieved_snippets : List Snippet) (scores : List σ)
    (save_dir : Option String) (evs0 : List Event) :
    (Except (PyErr ε) (List String)) × List Event → AnswerRes ε σ
  | (.error e, gevs) => (.error e, evs0 ++ gevs)
  | (.ok answers, gevs) =>
    (.ok (retVal answers, retrieved_snippets, scores), evs0 ++ gevs ++ writeEvs save_dir)

/-- The rag path after truncation (lines 137-166): a truncation exception
propagates before the directory is created; otherwise run the per-context
generation loop. -/
def afterTrunc {ε σ : Type} (cfg : Config) (gen : List Message → Except ε String)
    (pathExists : String → Bool) (question optStr : String) (k rrf_k : Nat)
    (save_dir : Option String) (retrieved_snippets : List Snippet) (scores : List σ) :
    Except (PyErr ε) (List String) → AnswerRes ε σ
  | .error e => (.error e, [Event.retrieveCall question k rrf_k])
  | .ok contexts2 =>
    afterLoop retrieved_snippets scores save_dir
      (Event.retrieveCall question k rrf_k :: mkdirEvs pathExists save_dir)
      (ragGenLoop cfg gen question optStr contexts2)

/-- The rag path after retrieval (lines 121-131): a retrieval exception
propagates; otherwise format the snippets, substitute a single empty
context when none were retrieved, and truncate the joined context. -/
def afterRetrieve {ε σ : Type} (cfg : Config) (gen : List Message → Except ε String)
    (pathExists : String → Bool) (question optStr : String) (k rrf_k : Nat)
    (save_dir : Option String) :
    Except ε (List Snippet × List σ) → AnswerRes ε σ
  | .error e => (.error (.raised e), [Event.retrieveCall question k rrf_k])
  | .ok (retrieved_snippets, scores) =>
    let contexts := (List.range retrieved_snippets.length).map
      (fun idx => formatSnippet idx (retrieved_snippets.getD idx ⟨"", ""⟩))
    let contexts := if contexts.length = 0 then [""] else contexts
    afterTrunc cfg gen pathExists question optStr k rrf_k save_dir
      retrieved_snippets scores (truncCtxs cfg (joinNl contexts))

/-- The no-rag path (lines 132-135 and 142-149): a single COT generation;
whitespace in the answer is collapsed; a generation exception propagates
and skips the writes. -/
def cotGenStep {ε σ : Type} (messages : List Message) (pathExists : String → Bool)
    (save_dir : Option String) : Except ε String → AnswerRes ε σ
  | .error e =>
    (.error (.raised e), mkdirEvs pathExists save_dir ++ [Event.genCall messages])
  | .ok ans =>
    (.ok (retVal [collapseWs ans], [], []),
     mkdirEvs pathExists save_dir ++ [Event.genCall messages] ++ writeEvs save_dir)

/-- `MedRAG.answer` (lines 107-166). Collaborators: `retrieve` is
`self.retrieval_system.retrieve`, `gen` is `self.generate`, `pathExists`
is `os.path.exists`; `σ` is the (opaque) type of relevance scores.
Returns the result of the call (or the propagated exception) together
with the trace of observable effects in program order. -/
def answer {ε σ : Type} (cfg : Config)
    (retrieve : String → Nat → Nat → Except ε (List Snippet × List σ))
    (gen : List Message → Except ε String) (pathExists : String → Bool)
    (question : String) (options : Option (List (String × String)))
    (k rrf_k : Nat) (save_dir : Option String) : AnswerRes ε σ :=
  let optStr := formatOptions options
  if cfg.rag then
    afterRetrieve cfg gen pathExists question optStr k rrf_k save_dir
      (retrieve question k rrf_k)
  else
    cotGenStep
      [⟨"system", cfg.templates.cot_system⟩,
       ⟨"user", cfg.templates.cot_prompt question optStr⟩]
      pathExists save_dir
      (gen [⟨"system", cfg.templates.cot_system⟩,
            ⟨"user", cfg.templates.cot_prompt question optStr⟩])

/-! ### The generation dispatcher `generate` (lines 172-276) -/

/-- The backend collaborators `generate` dispatches to: the hosted chat
API, the hosted Gemini API, and the local text-generation pipeline
(prompt, eos token ids, optional stopping criterion). -/
structure GenBackend (ε : Type) where
  openai_chat : List Message → Except ε String
  gemini_generate_content : String → Except ε String
  pipeline_call : String → List Nat → Option CustomStoppingCriteria → Except ε String

/-- Observable backend invocations of one `generate` call. -/
inductive GEvent where
  | hostedCall
  | pipelineCall
deriving DecidableEq, Repr

/-- `MedRAG.generate` (lines 172-276), with the instance state threaded
explicitly: `st` is whatever mutable state lives on the `MedRAG` object;
the method body assigns no `self` attribute, so the state is returned as
received. Branches:
* `openai` / `gemini`: hosted API call (lines 176-192);
* `mistral` (line 220): `apply_chat_template(messages, tokenize=False,
  add_generation_prompt=True, return_tensors="pt")` returns the rendered
  prompt STRING (`return_tensors` only applies when tokenizing — it is
  the same call as line 216), and `.to(device)` on a `str` raises
  `AttributeError`, so the branch fails before the model is ever
  invoked; lines 222-250 (streamer, `past_key_values`, `model.generate`)
  are unreachable;
* `meditron` (lines 252-254): only builds the stopping criterion — no
  branch assigns `response`, so line 275 raises `UnboundLocalError`;
* `llama-3` and the generic local path (lines 255-274): pipeline call,
  answer taken from `generated_text`. -/
def generateS {ε α : Type} (cfg : Config) (be : GenBackend ε) (st : α)
    (messages : List Message) :
    (Except (PyErr ε) String) × α × List GEvent :=
  if strIn "openai" (pyLower cfg.llm_name) then
    match be.openai_chat messages with
    | .error e => (.error (.raised e), st, [GEvent.hostedCall])
    | .ok ans => (.ok ans, st, [GEvent.hostedCall])
  else if strIn "gemini" (pyLower cfg.llm_name) then
    -- line 191: messages[0].content + '\n\n' + messages[1].content
    let combined := (messages.headD ⟨"", ""⟩).content ++ "\n\n"
      ++ ((messages.drop 1).headD ⟨"", ""⟩).content
    match be.gemini_generate_content combined with
    | .error e => (.error (.raised e), st, [GEvent.hostedCall])
    | .ok ans => (.ok ans, st, [GEvent.hostedCall])
  else
    let stopping_criteria : Option CustomStoppingCriteria := none  -- line 215
    let prompt := cfg.apply_chat_template messages                 -- line 216
    if strIn "mistral" (pyLower cfg.llm_name) then
      -- line 220: the tokenize=False render yields a str, and a str has
      -- no `.to` attribute: the statement raises before any model call,
      -- so no backend invocation event is emitted.
      let rendered := cfg.apply_chat_template messages
      let _ := rendered
      (.error (.attributeError "to"), st, [])
    else if strIn "meditron" (pyLower cfg.llm_name) then
      -- line 254: the criterion is built, but this branch performs no
      -- generation call; line 275 reads the never-assigned local `response`.
      let stopping_criteria := some (custom_stop cfg.tokenizer
        ["###", "User:", "\n\n\n"] (cfg.tokenizer.encode prompt true).length)
      let _ := stopping_criteria
      (.error (.unboundLocalError "response"), st, [])
    else if strIn "llama-3" (pyLower cfg.llm_name) then
      -- lines 255-264: two end tokens (EOS and "<|eot_id|>")
      match be.pipeline_call prompt [cfg.eos_token_id, cfg.eot_id] stopping_criteria with
      | .error e => (.error (.raised e), st, [GEvent.pipelineCall])
      | .ok t => (.ok t, st, [GEvent.pipelineCall])
    else
      -- lines 265-274: generic local path
      match be.pipeline_call prompt [cfg.eos_token_id] stopping_criteria with
      | .error e => (.error (.raised e), st, [GEvent.pipelineCall])
      | .ok t => (.ok t, st, [GEvent.pipelineCall])

/-! ### Context truncation step (lines 126-131, one branch) -/

/-- One truncation step: encode (with the branch's `add_special_tokens`
flag), keep the first `n` tokens, decode. -/
def truncateStep (tok : Tokenizer) (b : Bool) (n : Nat) (s : String) : String :=
  tok.decode ((tok.encode s b).take n)

/-! ### Concrete instances for evaluating the embedding -/

/-- A concrete template set. -/
def tmplW : Templates where
  cot_system := "sys-cot"
  cot_prompt := fun q o => "COT " ++ q ++ " " ++ o
  medrag_system := "sys-medrag"
  medrag_prompt := fun c q o => "CTX[" ++ c ++ "] " ++ q ++ " " ++ o

/-- A generic local backend (matches no special substring), rag enabled. -/
def cfgLocal : Config :=
  mkConfig "my-local-model" true charTokenizer tmplW (fun _ => "P") 0 0

/-- A generic local backend with rag disabled. -/
def cfgNoRag : Config :=
  mkConfig "my-local-model" false charTokenizer tmplW (fun _ => "P") 0 0

/-- An `openai/` backend whose model part matches no gpt substring. -/
def cfgOpenAIUnknown : Config :=
  mkConfig "openai/davinci" true charTokenizer tmplW (fun _ => "P") 0 0

/-- A mistral-family backend. -/
def cfgMistral : Config :=
  mkConfig "mistral-7b" true charTokenizer tmplW (fun _ => "P") 0 0

/-- A meditron-family backend. -/
def cfgMeditron : Config :=
  mkConfig "meditron-70b" false charTokenizer tmplW (fun _ => "P") 0 0

/-- A retrieval collaborator returning zero snippets. -/
def retrEmpty : String → Nat → Nat → Except Unit (List Snippet × List Nat) :=
  fun _ _ _ => .ok ([], [])

/-- A generation collaborator that always succeeds with fixed raw text. -/
def genOk : List Message → Except Unit String :=
  fun _ => .ok "A  is\n\ncorrect"

/-- A generation collaborator that always raises. -/
def genFail : List Message → Except Unit String :=
  fun _ => .error ()

/-- `os.path.exists` stub: the save directory never pre-exists. -/
def peFalse : String → Bool := fun _ => false

/-- A concrete backend bundle; its mistral model returns cache id 7. -/
def beW : GenBackend Unit where
  openai_chat := fun _ => .ok "hosted"
  gemini_generate_content := fun _ => .ok "gemini"
  pipeline_call := fun _ _ _ => .ok "pipeline"

/-- A concrete two-message conversation. -/
def msgsW : List Message := [⟨"system", "s"⟩, ⟨"user", "u"⟩]

/-- The meditron stop-phrase set (line 254). -/
def meditronStopWords : List String := ["###", "User:", "\n\n\n"]

/-- Token ids of a concrete rendered prompt. -/
def promptIds : List Nat := charTokenizer.encode "PROMPT" true

/-- Prompt ids followed by a generation containing a stop phrase. -/
def idsStop : List Nat := promptIds ++ charTokenizer.encode "final answer: B ###" true

/-- Prompt ids followed by a generation containing no stop phrase. -/
def idsCont : List Nat := promptIds ++ charTokenizer.encode "final answer: B" true

/-- The meditron stop criterion over the concrete prompt. -/
def medCrit : CustomStoppingCriteria :=
  custom_stop charTokenizer meditronStopWords promptIds.length

/-! ## Theorems -/

/-- C7: in every branch of the token-budget selection that assigns both
budgets, the assigned values satisfy `context_length < max_length`. -/
theorem selectProfile_ctx_lt_max (name : String) (p : Profile)
    (h : selectProfile name = some p) : p.context_length < p.max_length := by
  simp only [selectProfile] at h
  repeat' split at h
  all_goals (cases h <;> decide)

/-- Witness for `selectProfile_ctx_lt_max` at the gpt-4 profile. -/
theorem selectProfile_ctx_lt_max_witness :
    (Profile.mk 32768 30000).context_length < (Profile.mk 32768 30000).max_length :=
  selectProfile_ctx_lt_max "OpenAI/gpt-4" ⟨32768, 30000⟩ (by decide)

/-- C9: context truncation is idempotent, given that the tokenizer
re-encodes the decoded truncation faithfully (the round-trip law real
tokenizers provide for the token sequences they produce). -/
theorem truncation_idempotent (tok : Tokenizer) (b : Bool) (n : Nat) (s : String)
    (h : tok.encode (tok.decode ((tok.encode s b).take n)) b = (tok.encode s b).take n) :
    truncateStep tok b n (truncateStep tok b n s) = truncateStep tok b n s := by
  unfold truncateStep
  rw [h, List.take_take, Nat.min_self]

/-- Witness for `truncation_idempotent` with the char tokenizer. -/
theorem truncation_idempotent_witness :
    truncateStep charTokenizer false 2 (truncateStep charTokenizer false 2 "abc")
      = truncateStep charTokenizer false 2 "abc" :=
  truncation_idempotent charTokenizer false 2 "abc" (by decide)

/-- C3: the stopping criterion decodes only the tokens of the first row
past the input offset and stops iff some stop phrase occurs in the decoded
text; with the meditron phrase set, the post-offset span
`"final answer: B ###"` stops and `"final answer: B"` does not. -/
theorem customStop_call_spec :
    (∀ (c : CustomStoppingCriteria) (row : List Nat) (rest : List (List Nat))
        (scores : List Nat),
        c.call (row :: rest) scores = true ↔
          ∃ s ∈ c.stops_words,
            strIn s (c.tokenizer.decode (row.drop c.input_len)) = true) ∧
    medCrit.call [idsStop] [] = true ∧ medCrit.call [idsCont] [] = false := by
  refine ⟨?_, by decide, by decide⟩
  intro c row rest scores
  simp [CustomStoppingCriteria.call, List.any_eq_true]

/-- C1: for a meditron-family backend (and the `elif` chain not captured
by the mistral branch), `generate` raises: the meditron branch only builds
the stopping criterion, no branch assigns `response`, and line 275 then
reads the unassigned local. -/
theorem meditron_generate_unbound {ε α : Type} (cfg : Config) (be : GenBackend ε)
    (st : α) (messages : List Message)
    (hai : strIn "openai" (pyLower cfg.llm_name) = false)
    (hgem : strIn "gemini" (pyLower cfg.llm_name) = false)
    (hmis : strIn "mistral" (pyLower cfg.llm_name) = false)
    (hmed : strIn "meditron" (pyLower cfg.llm_name) = true) :
    (generateS cfg be st messages).1 = .error (.unboundLocalError "response") := by
  simp [generateS, hai, hgem, hmis, hmed]

/-- Witness for `meditron_generate_unbound` at `"meditron-70b"`. -/
theorem meditron_generate_unbound_witness :
    (generateS cfgMeditron beW (0 : Nat) msgsW).1
      = .error (.unboundLocalError "response") :=
  meditron_generate_unbound cfgMeditron beW 0 msgsW
    (by decide) (by decide) (by decide) (by decide)

/-- C2 counterexample: the claim says the `past_key_values` produced by one
mistral `generate` call is held on the instance and carried into the next
call. Concretely at `"mistral-7b"`: the first call raises `AttributeError`
at line 220 (the tokenize=False render is a `str`, which has no `.to`)
before the model is ever invoked — its trace records no backend
invocation — the instance state it returns is the state it received, and
the second call run from that state again performs no backend invocation.
No decode state is ever produced, held, or carried. -/
theorem mistral_pkv_not_carried :
    ((generateS cfgMistral beW (0 : Nat) msgsW).1
      = .error (.attributeError "to")) ∧
    ((generateS cfgMistral beW (0 : Nat) msgsW).2.1 = 0) ∧
    ((generateS cfgMistral beW (0 : Nat) msgsW).2.2 = ([] : List GEvent)) ∧
    ((generateS cfgMistral beW
        ((generateS cfgMistral beW (0 : Nat) msgsW).2.1) msgsW).2.2
      = ([] : List GEvent)) :=
  ⟨rfl, rfl, rfl, rfl⟩

/-- C2 (amended): for mistral-family backends, `generate` raises an
`AttributeError` at line 220 before the model is invoked (lines 222-250,
including every use of `past_key_values`, are unreachable); the call
leaves the instance state unchanged and performs no backend invocation, so
no decode state is held on the `MedRAG` instance or carried across calls. -/
theorem mistral_generate_frame {ε α : Type} (cfg : Config) (be : GenBackend ε)
    (st : α) (messages : List Message)
    (hai : strIn "openai" (pyLower cfg.llm_name) = false)
    (hgem : strIn "gemini" (pyLower cfg.llm_name) = false)
    (hmis : strIn "mistral" (pyLower cfg.llm_name) = true) :
    (generateS cfg be st messages).1 = .error (.attributeError "to") ∧
    (generateS cfg be st messages).2.1 = st ∧
    (generateS cfg be st messages).2.2 = [] := by
  simp [generateS, hai, hgem, hmis]

/-- Witness for `mistral_generate_frame` at `"mistral-7b"`. -/
theorem mistral_generate_frame_witness :
    (generateS cfgMistral beW (3 : Nat) msgsW).1 = .error (.attributeError "to") ∧
    (generateS cfgMistral beW (3 : Nat) msgsW).2.1 = 3 ∧
    (generateS cfgMistral beW (3 : Nat) msgsW).2.2 = [] :=
  mistral_generate_frame cfgMistral beW 3 msgsW (by decide) (by decide) (by decide)

/-! ### Helper lemmas about the event trace -/

/-- A predicate false on directory-creation events filters `mkdirEvs` to nil. -/
theorem mkdirEvs_filter_eq_nil (p : Event → Bool) (pe : String → Bool)
    (sd : Option String) (hp : ∀ d, p (Event.makedirs d) = false) :
    (mkdirEvs pe sd).filter p = [] := by
  cases sd with
  | none => rfl
  | some d =>
    simp only [mkdirEvs]
    split
    · rfl
    · simp [hp]

/-- A predicate false on file-write events filters `writeEvs` to nil. -/
theorem writeEvs_filter_eq_nil (p : Event → Bool) (sd : Option String)
    (hp : ∀ s, p (Event.writeFile s) = false) :
    (writeEvs sd).filter p = [] := by
  cases sd with
  | none => rfl
  | some d => simp [writeEvs, hp]

/-- Directory creation is not a file write. -/
theorem mkdirEvs_all_nonwrite (pe : String → Bool) (sd : Option String) :
    (mkdirEvs pe sd).all (fun ev => !isWrite ev) = true := by
  cases sd with
  | none => rfl
  | some d =>
    simp only [mkdirEvs]
    split
    · rfl
    · simp [isWrite]

/-- The generation loop emits only generation-call events, never writes. -/
theorem ragGenLoop_all_nonwrite {ε : Type} (cfg : Config)
    (gen : List Message → Except ε String) (q o : String) :
    ∀ ctxs, ((ragGenLoop cfg gen q o ctxs).2).all (fun ev => !isWrite ev) = true := by
  intro ctxs
  induction ctxs with
  | nil => rfl
  | cons c rest ih =>
    simp only [ragGenLoop]
    split
    · simp [isWrite]
    · split
      next e evs heq =>
        rw [heq] at ih
        simp only [List.all_cons, Bool.and_eq_true]
        exact ⟨by simp [isWrite], ih⟩
      next tail evs heq =>
        rw [heq] at ih
        simp only [List.all_cons, Bool.and_eq_true]
        exact ⟨by simp [isWrite], ih⟩

/-- On a loop exception, `afterLoop` adds no write events. -/
theorem afterLoop_error_no_writes {ε σ : Type} (sn : List Snippet) (sc : List σ)
    (sd : Option String) (evs0 : List Event)
    (pr : (Except (PyErr ε) (List String)) × List Event) (e : PyErr ε)
    (hevs0 : evs0.all (fun ev => !isWrite ev) = true)
    (hpr : pr.2.all (fun ev => !isWrite ev) = true)
    (h : (afterLoop sn sc sd evs0 pr).1 = .error e) :
    ((afterLoop sn sc sd evs0 pr).2).all (fun ev => !isWrite ev) = true := by
  rcases pr with ⟨r, gevs⟩
  cases r with
  | error er =>
    simp only [afterLoop, List.all_append]
    rw [hevs0, hpr]
    rfl
  | ok answers => simp [afterLoop] at h

/-- On a truncation or loop exception, the rag path adds no write events. -/
theorem afterTrunc_error_no_writes {ε σ : Type} (cfg : Config)
    (gen : List Message → Except ε String) (pe : String → Bool)
    (q o : String) (k r : Nat) (sd : Option String)
    (sn : List Snippet) (sc : List σ) (t : Except (PyErr ε) (List String)) (e : PyErr ε)
    (h : (afterTrunc cfg gen pe q o k r sd sn sc t).1 = .error e) :
    ((afterTrunc cfg gen pe q o k r sd sn sc t).2).all (fun ev => !isWrite ev) = true := by
  cases t with
  | error er => simp [afterTrunc, isWrite]
  | ok ctxs2 =>
    simp only [afterTrunc] at h ⊢
    refine afterLoop_error_no_writes sn sc sd _ _ e ?_ ?_ h
    · rw [List.all_cons, mkdirEvs_all_nonwrite]
      rfl
    · exact ragGenLoop_all_nonwrite cfg gen q o ctxs2

/-- C8: when a retrieval, truncation or generation step raises, the
exception propagates (`answer` returns `.error`) and no file under the
save directory is written: the trace holds no write event. -/
theorem answer_error_no_writes {ε σ : Type} (cfg : Config)
    (retrieve : String → Nat → Nat → Except ε (List Snippet × List σ))
    (gen : List Message → Except ε String) (pe : String → Bool)
    (question : String) (options : Option (List (String × String)))
    (k rrf_k : Nat) (d : String) (e : PyErr ε)
    (h : (answer cfg retrieve gen pe question options k rrf_k (some d)).1 = .error e) :
    ((answer cfg retrieve gen pe question options k rrf_k (some d)).2).all
      (fun ev => !isWrite ev) = true := by
  simp only [answer] at h ⊢
  by_cases hr : cfg.rag = true
  · rw [if_pos hr] at h ⊢
    obtain ⟨res, hres⟩ : ∃ res, retrieve question k rrf_k = res := ⟨_, rfl⟩
    rw [hres] at h ⊢
    cases res with
    | error er => simp [afterRetrieve, isWrite]
    | ok pr =>
      rcases pr with ⟨sn, sc⟩
      simp only [afterRetrieve] at h ⊢
      exact afterTrunc_error_no_writes cfg gen pe question (formatOptions options)
        k rrf_k (some d) sn sc _ e h
  · rw [if_neg hr] at h ⊢
    obtain ⟨g, hgeq⟩ : ∃ g, gen [⟨"system", cfg.templates.cot_system⟩,
        ⟨"user", cfg.templates.cot_prompt question (formatOptions options)⟩] = g := ⟨_, rfl⟩
    rw [hgeq] at h ⊢
    cases g with
    | error er =>
      simp only [cotGenStep, List.all_append, List.all_cons, List.all_nil]
      rw [mkdirEvs_all_nonwrite]
      rfl
    | ok a => simp [cotGenStep] at h

/-- Witness for `answer_error_no_writes`: a failing generation with a save
directory leaves a trace without writes. -/
theorem answer_error_no_writes_witness :
    ((answer cfgNoRag retrEmpty genFail peFalse "Q" none 32 100 (some "out")).2).all
      (fun ev => !isWrite ev) = true :=
  answer_error_no_writes cfgNoRag retrEmpty genFail peFalse "Q" none 32 100 "out"
    (.raised ()) rfl

/-! ### Event classification helpers -/

/-- A generation call is a generation event. -/
theorem isGen_genCall (m : List Message) : isGen (Event.genCall m) = true := rfl

/-- A retrieval call is not a generation event. -/
theorem isGen_retrieveCall (q : String) (k r : Nat) :
    isGen (Event.retrieveCall q k r) = false := rfl

/-- A generation call is not a retrieval event. -/
theorem isRetrieve_genCall (m : List Message) :
    isRetrieve (Event.genCall m) = false := rfl

/-- A retrieval call is a retrieval event. -/
theorem isRetrieve_retrieveCall (q : String) (k r : Nat) :
    isRetrieve (Event.retrieveCall q k r) = true := rfl

/-- `mkdirEvs` holds no generation events. -/
theorem mkdirEvs_filter_isGen (pe : String → Bool) (sd : Option String) :
    (mkdirEvs pe sd).filter isGen = [] :=
  mkdirEvs_filter_eq_nil isGen pe sd (fun _ => rfl)

/-- `mkdirEvs` holds no retrieval events. -/
theorem mkdirEvs_filter_isRetrieve (pe : String → Bool) (sd : Option String) :
    (mkdirEvs pe sd).filter isRetrieve = [] :=
  mkdirEvs_filter_eq_nil isRetrieve pe sd (fun _ => rfl)

/-- `writeEvs` holds no generation events. -/
theorem writeEvs_filter_isGen (sd : Option String) :
    (writeEvs sd).filter isGen = [] :=
  writeEvs_filter_eq_nil isGen sd (fun _ => rfl)

/-- `writeEvs` holds no retrieval events. -/
theorem writeEvs_filter_isRetrieve (sd : Option String) :
    (writeEvs sd).filter isRetrieve = [] :=
  writeEvs_filter_eq_nil isRetrieve sd (fun _ => rfl)

/-- C4: with rag enabled and a retrieval returning zero snippets, `answer`
performs exactly one generation call, and the RAG prompt of that call is
rendered with the empty string as its context. The tokenizer hypotheses
state that encoding the empty string yields no tokens and decoding no
tokens yields the empty string. -/
theorem answer_rag_empty_one_gen {ε σ : Type} (cfg : Config)
    (retrieve : String → Nat → Nat → Except ε (List Snippet × List σ))
    (gen : List Message → Except ε String) (pe : String → Bool)
    (question : String) (options : Option (List (String × String)))
    (k rrf_k : Nat) (sd : Option String) (p : Profile)
    (hrag : cfg.rag = true)
    (hprof : cfg.profile = some p)
    (hret : retrieve question k rrf_k = .ok ([], []))
    (henc : ∀ b, cfg.tokenizer.encode "" b = [])
    (hdec : cfg.tokenizer.decode [] = "") :
    ((answer cfg retrieve gen pe question options k rrf_k sd).2).filter isGen =
      [Event.genCall [⟨"system", cfg.templates.medrag_system⟩,
        ⟨"user", cfg.templates.medrag_prompt "" question (formatOptions options)⟩]] := by
  have htr : truncCtxs (ε := ε) cfg "" = .ok [""] := by
    unfold truncCtxs
    split
    · rw [hprof, henc true]
      simp [hdec]
    · split
      · rw [hprof, henc true]
        simp [hdec]
      · rw [hprof, henc false]
        simp [hdec]
  simp only [answer, hrag, if_true, hret, afterRetrieve]
  simp only [List.length_nil, List.range_zero, List.map_nil, joinNl, if_pos]
  rw [htr]
  simp only [afterTrunc, ragGenLoop]
  obtain ⟨g, hg⟩ : ∃ g, gen [⟨"system", cfg.templates.medrag_system⟩,
      ⟨"user", cfg.templates.medrag_prompt "" question (formatOptions options)⟩] = g :=
    ⟨_, rfl⟩
  rw [hg]
  cases g with
  | error er =>
    simp [afterLoop, List.filter_append, List.filter_cons, isGen_genCall,
      isGen_retrieveCall, mkdirEvs_filter_isGen]
  | ok ans =>
    simp [afterLoop, ragGenLoop, List.filter_append, List.filter_cons, isGen_genCall,
      isGen_retrieveCall, mkdirEvs_filter_isGen, writeEvs_filter_isGen]

/-- Witness for `answer_rag_empty_one_gen` on a concrete local backend. -/
theorem answer_rag_empty_one_gen_witness :
    ((answer cfgLocal retrEmpty genOk peFalse "Q" none 32 100 none).2).filter isGen =
      [Event.genCall [⟨"system", cfgLocal.templates.medrag_system⟩,
        ⟨"user", cfgLocal.templates.medrag_prompt "" "Q" (formatOptions none)⟩]] :=
  answer_rag_empty_one_gen cfgLocal retrEmpty genOk peFalse "Q" none 32 100 none
    ⟨2048, 1024⟩ rfl (by decide) rfl (fun _ => rfl) rfl

/-- C5: with rag disabled, `answer` never invokes the retrieval
collaborator, makes exactly one COT generation call, and returns a single
answer string together with empty snippet and score sequences. -/
theorem answer_noRag_single {ε σ : Type} (cfg : Config)
    (retrieve : String → Nat → Nat → Except ε (List Snippet × List σ))
    (gen : List Message → Except ε String) (pe : String → Bool)
    (question : String) (options : Option (List (String × String)))
    (k rrf_k : Nat) (sd : Option String) (a : String)
    (hrag : cfg.rag = false)
    (hgen : gen [⟨"system", cfg.templates.cot_system⟩,
      ⟨"user", cfg.templates.cot_prompt question (formatOptions options)⟩] = .ok a) :
    ((answer cfg retrieve gen pe question options k rrf_k sd).2).filter isRetrieve = [] ∧
    ((answer cfg retrieve gen pe question options k rrf_k sd).2).filter isGen =
      [Event.genCall [⟨"system", cfg.templates.cot_system⟩,
        ⟨"user", cfg.templates.cot_prompt question (formatOptions options)⟩]] ∧
    (answer cfg retrieve gen pe question options k rrf_k sd).1 =
      .ok (.str (collapseWs a), [], []) := by
  simp only [answer, hrag, Bool.false_eq_true, if_false, hgen, cotGenStep]
  refine ⟨?_, ?_, ?_⟩
  · simp [List.filter_append, List.filter_cons, isRetrieve_genCall,
      mkdirEvs_filter_isRetrieve, writeEvs_filter_isRetrieve]
  · simp [List.filter_append, List.filter_cons, isGen_genCall,
      mkdirEvs_filter_isGen, writeEvs_filter_isGen]
  · simp [retVal]

/-- Witness for `answer_noRag_single` on a concrete local backend. -/
theorem answer_noRag_single_witness :
    ((answer cfgNoRag retrEmpty genOk peFalse "Q" none 32 100 none).2).filter isRetrieve = [] ∧
    ((answer cfgNoRag retrEmpty genOk peFalse "Q" none 32 100 none).2).filter isGen =
      [Event.genCall [⟨"system", cfgNoRag.templates.cot_system⟩,
        ⟨"user", cfgNoRag.templates.cot_prompt "Q" (formatOptions none)⟩]] ∧
    (answer cfgNoRag retrEmpty genOk peFalse "Q" none 32 100 none).1 =
      .ok (.str (collapseWs "A  is\n\ncorrect"), [], []) :=
  answer_noRag_single cfgNoRag retrEmpty genOk peFalse "Q" none 32 100 none
    "A  is\n\ncorrect" rfl rfl

/-! ### Whitespace collapsing helpers -/

/-- Entering a list whose head is not whitespace, the in-run flag is
irrelevant. -/
theorem collapseChars_inRun_of_headNot (l : List Char)
    (hl : ∀ c, l.head? = some c → isWs c = false) :
    collapseChars l true = collapseChars l false := by
  cases l with
  | nil => rfl
  | cons c ls =>
    have hc : isWs c = false := hl c rfl
    simp [collapseChars, hc]

/-- While inside a whitespace run, further whitespace is dropped until the
run ends. -/
theorem collapseChars_ws_run_append (l : List Char)
    (hl : ∀ c, l.head? = some c → isWs c = false) :
    ∀ r : List Char, (∀ c ∈ r, isWs c = true) →
      collapseChars (r ++ l) true = collapseChars l false := by
  intro r
  induction r with
  | nil => intro _; exact collapseChars_inRun_of_headNot l hl
  | cons c rs ih =>
    intro hr
    have hc : isWs c = true := hr c (by simp)
    simp [collapseChars, hc, ih (fun x hx => hr x (by simp [hx]))]

/-- C6: (1) in the rag generation loop (storage site line 158) every
stored answer is the whitespace-collapsed raw generated text; (2) on the
no-rag COT path (storage site line 149) the answer `answer()` stores and
returns is the whitespace-collapsed raw generated text; (3) a maximal
leading whitespace run of any length and kind is replaced by a single
space; (4) the spec's example: `"A  is\n\ncorrect"` collapses to
`"A is correct"`. -/
theorem answers_ws_collapsed {ε σ : Type} :
    (∀ (cfg : Config) (gen : List Message → Except ε String)
        (question optStr : String) (ctxs answers : List String),
        (ragGenLoop cfg gen question optStr ctxs).1 = .ok answers →
        ∀ a ∈ answers, ∃ m raw, gen m = .ok raw ∧ a = collapseWs raw) ∧
    (∀ (cfg : Config)
        (retrieve : String → Nat → Nat → Except ε (List Snippet × List σ))
        (gen : List Message → Except ε String) (pe : String → Bool)
        (question : String) (options : Option (List (String × String)))
        (k rrf_k : Nat) (sd : Option String) (raw : String),
        cfg.rag = false →
        gen [⟨"system", cfg.templates.cot_system⟩,
          ⟨"user", cfg.templates.cot_prompt question (formatOptions options)⟩] = .ok raw →
        (answer cfg retrieve gen pe question options k rrf_k sd).1 =
          .ok (.str (collapseWs raw), [], [])) ∧
    (∀ r l : List Char, r ≠ [] → (∀ c ∈ r, isWs c = true) →
        (∀ c, l.head? = some c → isWs c = false) →
        collapseChars (r ++ l) false = ' ' :: collapseChars l false) ∧
    collapseWs "A  is\n\ncorrect" = "A is correct" := by
  refine ⟨?_, ?_, ?_, by decide⟩
  · intro cfg gen question optStr ctxs
    induction ctxs with
    | nil =>
      intro answers h a ha
      simp only [ragGenLoop] at h
      cases h
      simp at ha
    | cons c rest ih =>
      intro answers h a ha
      simp only [ragGenLoop] at h
      obtain ⟨g, hg⟩ : ∃ g, gen [⟨"system", cfg.templates.medrag_system⟩,
          ⟨"user", cfg.templates.medrag_prompt c question optStr⟩] = g := ⟨_, rfl⟩
      rw [hg] at h
      cases g with
      | error er => simp at h
      | ok raw =>
        obtain ⟨pr, hpr⟩ : ∃ pr, ragGenLoop cfg gen question optStr rest = pr := ⟨_, rfl⟩
        rw [hpr] at h
        rcases pr with ⟨r, evs⟩
        cases r with
        | error er => simp at h
        | ok tail =>
          simp only at h
          cases h
          rcases List.mem_cons.mp ha with hhead | htail
          · exact ⟨_, raw, hg, hhead⟩
          · exact ih tail (by rw [hpr]) a htail
  · intro cfg retrieve gen pe question options k rrf_k sd raw hrag hgen
    simp only [answer, hrag, Bool.false_eq_true, if_false, hgen, cotGenStep]
    simp [retVal]
  · intro r l hr hws hl
    cases r with
    | nil => exact absurd rfl hr
    | cons c rs =>
      have hc : isWs c = true := hws c (by simp)
      simp [collapseChars, hc,
        collapseChars_ws_run_append l hl rs (fun x hx => hws x (by simp [hx]))]

/-- Witness for `answers_ws_collapsed`: the rag loop stores the collapsed
form of the raw generated text, and the no-rag path returns it. -/
theorem answers_ws_collapsed_witness :
    (∃ m raw, genOk m = .ok raw ∧ "A is correct" = collapseWs raw) ∧
    (answer cfgNoRag retrEmpty genOk peFalse "Q" none 32 100 none).1 =
      .ok (.str (collapseWs "A  is\n\ncorrect"), [], []) :=
  ⟨(@answers_ws_collapsed Unit Nat).1 cfgLocal genOk "Q" "" [""] ["A is correct"]
      (by rfl) "A is correct" (by simp),
   (@answers_ws_collapsed Unit Nat).2.1 cfgNoRag retrEmpty genOk peFalse "Q" none
      32 100 none "A  is\n\ncorrect" rfl rfl⟩

/-- C10: an `openai/` backend whose model part matches none of the gpt
substrings constructs with no token budgets assigned, and the first
rag-enabled `answer` call fails with an attribute error when the
truncation step reads `context_length`. -/
theorem openai_unknown_model_error {ε σ : Type} (llm_name : String)
    (tok : Tokenizer) (tmpl : Templates) (act : List Message → String)
    (eos eot : Nat)
    (retrieve : String → Nat → Nat → Except ε (List Snippet × List σ))
    (gen : List Message → Except ε String) (pe : String → Bool)
    (question : String) (options : Option (List (String × String)))
    (k rrf_k : Nat) (sd : Option String) (snips : List Snippet) (scores : List σ)
    (hhead : pyLower ((pySplitSlash llm_name).headD "") = "openai")
    (h35 : strIn "gpt-3.5" ((pySplitSlash llm_name).getLastD "") = false)
    (h35b : strIn "gpt-35" ((pySplitSlash llm_name).getLastD "") = false)
    (h4 : strIn "gpt-4" ((pySplitSlash llm_name).getLastD "") = false)
    (hin : strIn "openai" (pyLower llm_name) = true)
    (hret : retrieve question k rrf_k = .ok (snips, scores)) :
    (mkConfig llm_name true tok tmpl act eos eot).profile = none ∧
    (answer (mkConfig llm_name true tok tmpl act eos eot) retrieve gen pe
        question options k rrf_k sd).1 = .error (.attributeError "context_length") := by
  have hprof : selectProfile llm_name = none := by
    simp only [selectProfile, hhead, h35, h35b, h4]
    simp
  refine ⟨hprof, ?_⟩
  have hragc : (mkConfig llm_name true tok tmpl act eos eot).rag = true := rfl
  have htr : ∀ s, truncCtxs (ε := ε)
      (mkConfig llm_name true tok tmpl act eos eot) s =
        .error (.attributeError "context_length") := by
    intro s
    simp only [truncCtxs, mkConfig, hin, if_true, hprof]
  simp [answer, hragc, hret, afterRetrieve, htr, afterTrunc]

/-- Witness for `openai_unknown_model_error` at `"openai/davinci"`. -/
theorem openai_unknown_model_error_witness :
    cfgOpenAIUnknown.profile = none ∧
    (answer cfgOpenAIUnknown retrEmpty genOk peFalse "Q" none 32 100 none).1
      = .error (.attributeError "context_length") :=
  openai_unknown_model_error "openai/davinci" charTokenizer tmplW
    (fun _ => "P") 0 0 retrEmpty genOk peFalse "Q" none 32 100 none
    [] [] (by decide) (by decide) (by decide) (by decide) (by decide) rfl

end MedRAG
